import Mathlib

/-!
Shallow embedding of the TRADUX order-status engine: the admin dashboard
(two near-duplicate implementations, called variant 1 and variant 2 below)
and the client review page.  Statuses are plain strings, as in the source;
JavaScript truthiness on strings is modelled by comparison with the empty
string, and an absent (`undefined`) lookup result by `Option`.
-/

namespace Tradux

/-- JS `a || b` on strings: the empty string is the only falsy string. -/
def jsOr (a b : String) : String := if a = "" then b else a

/-- JS `x || b` where `x` may be `undefined` (modelled as `Option String`). -/
def jsOrUndef (a : Option String) (b : String) : String :=
  match a with
  | none => b
  | some v => if v = "" then b else v

/-- JS `String.prototype.trim()`: strip leading and trailing whitespace. -/
def jsTrim (s : String) : String :=
  String.mk (((s.data.dropWhile Char.isWhitespace).reverse.dropWhile
    Char.isWhitespace).reverse)

/-- JS `s.substring(0, n)`: the first `n` characters of `s`. -/
def jsSubstring (s : String) (n : Nat) : String := String.mk (s.data.take n)

/-- JS object lookup `tbl[k]` on a string-keyed record literal,
modelled as association-list lookup (first matching key). -/
def jsLookup (tbl : List (String × String)) (k : String) : Option String :=
  (tbl.find? (fun p => p.1 == k)).map (fun p => p.2)

/-- The `Order` interface of the admin dashboard (variant 1), restricted to
the fields the status engine reads.  All content fields are strings that may
be empty, mirroring the backend JSON. -/
structure Order where
  id : String
  order_number : String
  translation_status : String
  original_text : String
  translated_text : String
  translation_html : String
  proofread_text : String
  ai_corrections : String
  correction_notes : String
  deriving Repr, DecidableEq

/-- The `STATUS_COLORS` record literal of admin variant 1. -/
def STATUS_COLORS : List (String × String) :=
  [("received", "#3182ce"),
   ("translating", "#805ad5"),
   ("proofreading", "#d69e2e"),
   ("pm_review", "#dd6b20"),
   ("client_review", "#38a169"),
   ("corrections", "#e53e3e"),
   ("approved", "#2f855a"),
   ("completed", "#276749"),
   ("translation_error", "#c53030"),
   ("pm_upload_ready", "#10b981"),
   ("final", "#065f46")]

/-- The `STATUS_LABELS` record literal of admin variant 1. -/
def STATUS_LABELS : List (String × String) :=
  [("received", "Received"),
   ("translating", "AI Translating"),
   ("proofreading", "AI Proofreading"),
   ("pm_review", "PM Review"),
   ("client_review", "Client Review"),
   ("corrections", "Corrections Needed"),
   ("approved", "Client Approved"),
   ("completed", "Completed"),
   ("translation_error", "Error"),
   ("pm_upload_ready", "READY"),
   ("final", "FINAL")]

/-- Badge label derivation:
`STATUS_LABELS[st] || st` (admin variant 1, badge render). -/
def statusBadgeLabel (st : String) : String :=
  jsOrUndef (jsLookup STATUS_LABELS st) st

/-- Badge color derivation:
`STATUS_COLORS[st] || '#718096'` (admin variant 1, badge render). -/
def statusBadgeColor (st : String) : String :=
  jsOrUndef (jsLookup STATUS_COLORS st) "#718096"

/-- The check `['translating', 'proofreading'].includes(st)`: the transient
statuses
for which the admin arms auto-refresh polling. -/
def isTransientStatus (st : String) : Bool :=
  st ∈ ["translating", "proofreading"]

/-- The statuses for which variant 1's AI-pipeline tab renders a panel:
the guard conditions of the conditional renders, in source order. -/
def pipelinePanel (st : String) : Option String :=
  if st = "received" then some "start-translation"
  else if st = "translating" then some "progress-translating"
  else if st = "proofreading" then some "progress-proofreading"
  else if st = "translation_error" then some "error-retry"
  else if st = "pm_review" ∨ st = "corrections" then some "pm-review"
  else if st = "client_review" then some "waiting-client"
  else if st = "approved" then some "finalize"
  else if st = "completed" then some "completed"
  else if st = "pm_upload_ready" then some "upload-ready-hint"
  else if st = "final" then some "final"
  else none

/-- The statuses that render some pipeline panel in variant 1. -/
def panelStatuses : List String :=
  ["received", "translating", "proofreading", "translation_error",
   "pm_review", "corrections", "client_review", "approved", "completed",
   "pm_upload_ready", "final"]

/-- The Upload Translation tab (identical in both admin variants): the
accept panel for `pm_upload_ready`, the final-info panel for `final`, and
otherwise — any other status, unknown ones included — the upload area with
its upload action. -/
def uploadTabPanel (st : String) : Option String :=
  if st = "pm_upload_ready" then some "accept-upload"
  else if st = "final" then some "final-info"
  else some "upload-area"

/-- The network requests the admin and review pages can issue.  Each carries
exactly the data the corresponding `fetch` call puts in the URL or body. -/
inductive NetReq where
  | getOrder (orderId : String)
  | listOrders
  | startTranslationReq (order_id ai_commands : String)
  | reTranslateReq (order_id ai_commands : String)
  | approvePmReq (order_id : String)
  | markCompleteReq (order_id : String)
  | acceptPmUploadReq (order_id : String)
  | uploadPmReq (order_id filename : String)
  | reviewGet (orderId token : String)
  | reviewPost (orderId token act : String) (correction_notes : Option String)
  deriving Repr, DecidableEq

/-- The `useState` hooks of the admin dashboard (variant 1) that drive the
status engine: the selected order, the auto-refresh flag, the in-flight
action marker (`''` when idle), the optional PM-upload file (by name),
the upload-loading flag, and the AI-instructions text box. -/
structure AdminState where
  selectedOrder : Option Order
  autoRefresh : Bool
  actionLoading : String
  uploadFile : Option String
  uploadLoading : Bool
  aiCommands : String
  deriving Repr, DecidableEq

/-- A `getOrder` response resolving in `loadOrder` (variant 1): the data is
stored unconditionally with `setSelectedOrder(data)`, and auto-refresh is
enabled when the reported status is transient. -/
def applyLoadOrder (s : AdminState) (data : Order) : AdminState :=
  { s with
    selectedOrder := some data
    autoRefresh :=
      if isTransientStatus data.translation_status then true
      else s.autoRefresh }

/-- The auto-refresh `useEffect` of variant 1 arms a `setInterval` exactly
when `autoRefresh` is true. -/
def pollTimerArmed (s : AdminState) : Bool := s.autoRefresh

/-- One tick of the armed interval: if the selected order is transient,
re-fetch it and the order list; otherwise disarm auto-refresh and issue
no request. -/
def pollTick (s : AdminState) : AdminState × List NetReq :=
  match s.selectedOrder with
  | some o =>
      if isTransientStatus o.translation_status then
        (s, [NetReq.getOrder o.id, NetReq.listOrders])
      else ({ s with autoRefresh := false }, [])
  | none => ({ s with autoRefresh := false }, [])

/-- Variant 1 start button: rendered only inside the
`translation_status === 'received'` panel. -/
def startBtnRendered (o : Order) : Bool := o.translation_status = "received"

/-- Variant 1 start button `disabled` attribute:
`actionLoading === 'start' || !selectedOrder.original_text`. -/
def startBtnDisabled (s : AdminState) (o : Order) : Bool :=
  s.actionLoading = "start" ∨ o.original_text = ""

/-- Clicking the variant 1 start button: a no-op unless the button is
rendered and enabled; otherwise the handler marks `'start'` in flight and
issues the start-translation POST. -/
def clickStart (s : AdminState) : AdminState × List NetReq :=
  match s.selectedOrder with
  | some o =>
      if startBtnRendered o ∧ ¬ startBtnDisabled s o then
        ({ s with actionLoading := "start" },
         [NetReq.startTranslationReq o.id s.aiCommands])
      else (s, [])
  | none => (s, [])

/-- Re-translate buttons of variant 1: rendered in the `translation_error`
panel and in the `pm_review`/`corrections` panel. -/
def reTranslateBtnRendered (o : Order) : Bool :=
  o.translation_status = "translation_error" ∨
  o.translation_status = "pm_review" ∨ o.translation_status = "corrections"

/-- Variant 1 re-translate button `disabled` attribute:
`actionLoading === 're-translate'`. -/
def reTranslateBtnDisabled (s : AdminState) : Bool :=
  s.actionLoading = "re-translate"

/-- Clicking a variant 1 re-translate button. -/
def clickReTranslate (s : AdminState) : AdminState × List NetReq :=
  match s.selectedOrder with
  | some o =>
      if reTranslateBtnRendered o ∧ ¬ reTranslateBtnDisabled s then
        ({ s with actionLoading := "re-translate" },
         [NetReq.reTranslateReq o.id s.aiCommands])
      else (s, [])
  | none => (s, [])

/-- Approve button of variant 1: rendered in the `pm_review`/`corrections`
panel. -/
def approveBtnRendered (o : Order) : Bool :=
  o.translation_status = "pm_review" ∨ o.translation_status = "corrections"

/-- Variant 1 approve button `disabled` attribute:
`actionLoading === 'approve'`. -/
def approveBtnDisabled (s : AdminState) : Bool := s.actionLoading = "approve"

/-- Clicking the variant 1 approve button. -/
def clickApprove (s : AdminState) : AdminState × List NetReq :=
  match s.selectedOrder with
  | some o =>
      if approveBtnRendered o ∧ ¬ approveBtnDisabled s then
        ({ s with actionLoading := "approve" }, [NetReq.approvePmReq o.id])
      else (s, [])
  | none => (s, [])

/-- Finalize button of variant 1: rendered in the `approved` panel, disabled
by `actionLoading === 'complete'`. -/
def clickComplete (s : AdminState) : AdminState × List NetReq :=
  match s.selectedOrder with
  | some o =>
      if o.translation_status = "approved" ∧ ¬ s.actionLoading = "complete" then
        ({ s with actionLoading := "complete" }, [NetReq.markCompleteReq o.id])
      else (s, [])
  | none => (s, [])

/-- Accept-upload button of variant 1: rendered in the `pm_upload_ready`
panel, disabled by `actionLoading === 'accept_upload'`. -/
def clickAcceptUpload (s : AdminState) : AdminState × List NetReq :=
  match s.selectedOrder with
  | some o =>
      if o.translation_status = "pm_upload_ready" ∧
          ¬ s.actionLoading = "accept_upload" then
        ({ s with actionLoading := "accept_upload" },
         [NetReq.acceptPmUploadReq o.id])
      else (s, [])
  | none => (s, [])

/-- Two clicks of the same button in rapid succession (the state update of
the first click is visible to the second); returns all issued requests. -/
def doubleClick (f : AdminState → AdminState × List NetReq)
    (s : AdminState) : List NetReq :=
  ((f s).1 |> f).2 ++ (f s).2

/-- Variant 2 of the admin dashboard keeps a smaller hook set: no
auto-refresh flag, and its `Order` interface has no `translation_html`
field. -/
structure AdminStateV2 where
  selectedOrder : Option Order
  actionLoading : String
  aiCommands : String
  deriving Repr, DecidableEq

/-- Variant 2 start button `disabled` attribute: only
`actionLoading === 'start'` — it does not check `original_text`. -/
def startBtnDisabledV2 (s : AdminStateV2) : Bool := s.actionLoading = "start"

/-- Clicking the variant 2 start button (rendered only in the `received`
panel, gated only by the in-flight flag). -/
def clickStartV2 (s : AdminStateV2) : AdminStateV2 × List NetReq :=
  match s.selectedOrder with
  | some o =>
      if o.translation_status = "received" ∧ ¬ startBtnDisabledV2 s then
        ({ s with actionLoading := "start" },
         [NetReq.startTranslationReq o.id s.aiCommands])
      else (s, [])
  | none => (s, [])

/-- How a mutating `fetch` settles: an HTTP response (2xx or not, with an
optional `detail` message in the JSON body), or a thrown network error. -/
inductive FetchResult where
  | resp (ok : Bool) (detail : Option String)
  | netError
  deriving Repr, DecidableEq

/-- Whether a settled fetch counts as a failure (non-2xx or network error). -/
def FetchResult.failed : FetchResult → Bool
  | .resp ok _ => !ok
  | .netError => true

/-- The observable outcome of an action handler resuming after its fetch
settles: the hook state afterwards, the error toast shown (if any), the
success toast shown (if any), and whether a `loadOrder` refresh of the
selected order was requested. -/
structure ActionResult where
  state : AdminState
  toastError : Option String
  toastSuccess : Option String
  refreshSelected : Bool
  deriving Repr, DecidableEq

/-- Handler `startTranslation` (variant 1) resuming after its fetch settles. -/
def startTranslationComplete (s : AdminState) (r : FetchResult) :
    ActionResult :=
  match r with
  | .resp true _ =>
      { state := { s with autoRefresh := true, actionLoading := "" }
        toastError := none
        toastSuccess := some "Translation pipeline started! Auto-refreshing..."
        refreshSelected := true }
  | .resp false d =>
      { state := { s with actionLoading := "" }
        toastError := some (jsOrUndef d "Failed to start")
        toastSuccess := none
        refreshSelected := false }
  | .netError =>
      { state := { s with actionLoading := "" }
        toastError := some "Failed to start translation"
        toastSuccess := none
        refreshSelected := false }

/-- Handler `reTranslate` resuming after its fetch settles. -/
def reTranslateComplete (s : AdminState) (r : FetchResult) : ActionResult :=
  match r with
  | .resp true _ =>
      { state := { s with autoRefresh := true, actionLoading := "" }
        toastError := none
        toastSuccess := some "Re-translation started!"
        refreshSelected := true }
  | .resp false d =>
      { state := { s with actionLoading := "" }
        toastError := some (jsOrUndef d "Failed to re-translate")
        toastSuccess := none
        refreshSelected := false }
  | .netError =>
      { state := { s with actionLoading := "" }
        toastError := some "Failed to re-translate"
        toastSuccess := none
        refreshSelected := false }

/-- Handler `approvePM` resuming after its fetch settles.  The source has only
`if (resp.ok) { ... }` with no else branch: a non-2xx response produces no
toast at all; only a thrown network error reaches the generic catch. -/
def approvePMComplete (s : AdminState) (r : FetchResult) : ActionResult :=
  match r with
  | .resp true _ =>
      { state := { s with actionLoading := "" }
        toastError := none
        toastSuccess := some "Sent to client for review!"
        refreshSelected := true }
  | .resp false _ =>
      { state := { s with actionLoading := "" }
        toastError := none
        toastSuccess := none
        refreshSelected := false }
  | .netError =>
      { state := { s with actionLoading := "" }
        toastError := some "Failed to approve"
        toastSuccess := none
        refreshSelected := false }

/-- Handler `markComplete` resuming after its fetch settles.  Like `approvePM`, a
non-2xx response is silent. -/
def markCompleteComplete (s : AdminState) (r : FetchResult) : ActionResult :=
  match r with
  | .resp true _ =>
      { state := { s with actionLoading := "" }
        toastError := none
        toastSuccess := some "Order marked as completed!"
        refreshSelected := true }
  | .resp false _ =>
      { state := { s with actionLoading := "" }
        toastError := none
        toastSuccess := none
        refreshSelected := false }
  | .netError =>
      { state := { s with actionLoading := "" }
        toastError := some "Failed to complete"
        toastSuccess := none
        refreshSelected := false }

/-- Handler `acceptPmUpload` resuming after its fetch settles. -/
def acceptPmUploadComplete (s : AdminState) (r : FetchResult) :
    ActionResult :=
  match r with
  | .resp true _ =>
      { state := { s with actionLoading := "" }
        toastError := none
        toastSuccess := some "Translation sent to client! Status set to FINAL."
        refreshSelected := true }
  | .resp false d =>
      { state := { s with actionLoading := "" }
        toastError := some (jsOrUndef d "Failed to accept")
        toastSuccess := none
        refreshSelected := false }
  | .netError =>
      { state := { s with actionLoading := "" }
        toastError := some "Failed to accept upload"
        toastSuccess := none
        refreshSelected := false }

/-- The synchronous prefix of `uploadPmTranslation`, up to (and including)
issuing the multipart POST: with no file selected it shows a local error and
returns before touching `uploadLoading`; with a file it sets `uploadLoading`
and issues exactly one request. -/
def uploadPmTranslationStep (s : AdminState) (orderId : String) :
    AdminState × Option String × List NetReq :=
  match s.uploadFile with
  | none => (s, some "Please select a file first", [])
  | some f =>
      ({ s with uploadLoading := true }, none,
       [NetReq.uploadPmReq orderId f])

/-- Function `getTranslationHtml` of variant 1:
`order.translation_html || order.proofread_text || order.translated_text || ''`. -/
def getTranslationHtml (o : Order) : String :=
  jsOr o.translation_html (jsOr o.proofread_text (jsOr o.translated_text ""))

/-- The translation text shown in variant 1's PM-review panel:
`getTranslationHtml(o).substring(0, 3000) || 'Translation not available'`
followed by a truncation note when the HTML exceeds 3000 characters. -/
def reviewPanelTranslationText (o : Order) : String :=
  jsOr (jsSubstring (getTranslationHtml o) 3000) "Translation not available"
    ++ (if 3000 < (getTranslationHtml o).length then
          "\n\n... [truncated — use Preview or Edit to see full HTML]"
        else "")

/-- The translation text shown in variant 2's PM-review panel:
`o.proofread_text || o.translated_text || 'Translation not available'`
(variant 2's order interface has no `translation_html` field). -/
def pmReviewTextV2 (o : Order) : String :=
  jsOr o.proofread_text (jsOr o.translated_text "Translation not available")

/-- Modelled from the spec: the fallback chain the displayed translation
must follow — markup if present, else proofread text, else translated text,
else a not-available placeholder. -/
def specFallbackChain (markup proofread translated : String) : String :=
  if markup ≠ "" then markup
  else if proofread ≠ "" then proofread
  else if translated ≠ "" then translated
  else "Translation not available"

/-- The `useState` hooks of the review page that drive submission: the
in-flight action marker (`''` when idle) and the correction-notes box,
plus the order id and token extracted from the URL. -/
structure ReviewState where
  orderId : String
  token : String
  action : String
  correctionNotes : String
  deriving Repr, DecidableEq

/-- JS `pathParts[pathParts.length - 1]`: the last path segment. -/
def extractOrderId (path : String) : String :=
  (path.splitOn "/").getLastD ""

/-- JS `new URLSearchParams(search).get('token') || ''`, given the already
extracted query value (`none` when the parameter is absent). -/
def extractToken (tokenParam : Option String) : String :=
  jsOrUndef tokenParam ""

/-- The initial `useEffect` of the review page: with a missing order id or
token it shows the local `'Invalid review link.'` error and issues no
request; otherwise it issues the authenticated GET. -/
def reviewInit (orderId token : String) : Option String × List NetReq :=
  if orderId = "" ∨ token = "" then (some "Invalid review link.", [])
  else (none, [NetReq.reviewGet orderId token])

/-- The error the initial review fetch surfaces when the response is
rejected: `throw new Error('Invalid or expired review link')`. -/
def reviewFetchError (ok : Bool) : Option String :=
  if ok then none else some "Invalid or expired review link"

/-- Handler `handleSubmit` of the review page, up to (and including) issuing the
POST: for `request_correction` with blank notes it shows a local toast and
returns without marking anything in flight or issuing a request; otherwise
it marks the action in flight and issues exactly one POST carrying the
order id (path and body), the token (query), the action, and the notes
(`correctionNotes || undefined`). -/
def handleSubmit (s : ReviewState) (reviewAction : String) :
    ReviewState × Option String × List NetReq :=
  if reviewAction = "request_correction" ∧ jsTrim s.correctionNotes = "" then
    (s, some "Please describe the corrections you need.", [])
  else
    ({ s with action := reviewAction }, none,
     [NetReq.reviewPost s.orderId s.token reviewAction
        (if s.correctionNotes = "" then none else some s.correctionNotes)])

/-- Review-page approve and request-corrections buttons are both disabled
by `disabled={!!action}`: any in-flight action disables both. -/
def reviewBtnDisabled (s : ReviewState) : Bool := ¬ s.action = ""

/-- Clicking a review button: a no-op while any action is in flight. -/
def clickReview (s : ReviewState) (reviewAction : String) :
    ReviewState × List NetReq :=
  if reviewBtnDisabled s then (s, [])
  else
    let r := handleSubmit s reviewAction
    (r.1, r.2.2)

/-- A minimal order with the given id and status and all content fields
empty. -/
def mkOrder (i st : String) : Order :=
  { id := i
    order_number := "TRX-" ++ i
    translation_status := st
    original_text := ""
    translated_text := ""
    translation_html := ""
    proofread_text := ""
    ai_corrections := ""
    correction_notes := "" }

/-- Initial admin hook state (nothing selected, everything idle). -/
def idleAdminState : AdminState :=
  { selectedOrder := none
    autoRefresh := false
    actionLoading := ""
    uploadFile := none
    uploadLoading := false
    aiCommands := "" }

/-- A transient order, as returned by a poll for order A. -/
def orderTranslatingA : Order := mkOrder "ord-A" "translating"

/-- The stale poll response for order A (pipeline has moved on). -/
def orderAStale : Order := mkOrder "ord-A" "proofreading"

/-- Order B, selected after order A. -/
def orderB : Order := mkOrder "ord-B" "received"

/-- A completed order, loaded while the poll timer is still armed. -/
def orderCompletedC : Order := mkOrder "ord-C" "completed"

/-- Admin state with order A selected and polling armed. -/
def sSelectedA : AdminState :=
  { idleAdminState with
      selectedOrder := some orderTranslatingA
      autoRefresh := true }

/-- Admin state with a completed order selected but the poll timer still
armed (reachable by loading a completed order after a transient one). -/
def sArmedCompleted : AdminState :=
  { idleAdminState with
      selectedOrder := some orderCompletedC
      autoRefresh := true }

/-- An order sitting in PM review. -/
def orderPm2 : Order := mkOrder "ord-2" "pm_review"

/-- Admin state with a PM-review order selected and no action in flight. -/
def sPmIdle : AdminState :=
  { idleAdminState with selectedOrder := some orderPm2 }

/-- Admin state while the re-translate request is outstanding. -/
def sReTranslateInFlight : AdminState :=
  { idleAdminState with
      selectedOrder := some orderPm2
      actionLoading := "re-translate" }

/-- A received order with no extracted source text. -/
def orderReceivedNoText : Order := mkOrder "ord-3" "received"

/-- Variant 2 admin state with the empty-source received order selected. -/
def sV2NoText : AdminStateV2 :=
  { selectedOrder := some orderReceivedNoText
    actionLoading := ""
    aiCommands := "" }

/-- Variant 1 admin state with the empty-source received order selected. -/
def sV1NoTextState : AdminState :=
  { idleAdminState with selectedOrder := some orderReceivedNoText }

/-- An order whose only available content is the proofread text. -/
def orderProofOnly : Order :=
  { mkOrder "ord-4" "pm_review" with proofread_text := "Proofread text." }

/-- Review-page state with an in-flight approve action. -/
def rInFlight : ReviewState :=
  { orderId := "ord-9", token := "tok", action := "approve"
    correctionNotes := "" }

/-- Review-page state with whitespace-only correction notes. -/
def rBlankNotes : ReviewState :=
  { orderId := "ord-9", token := "tok", action := ""
    correctionNotes := "   " }

/-- Review-page state with substantive correction notes. -/
def rRealNotes : ReviewState :=
  { orderId := "ord-9", token := "tok", action := ""
    correctionNotes := "Fix date format" }

/-- C1 counterexample: the claim "polling is armed iff the selected order's
status is transient" fails, because `loadOrder` never clears `autoRefresh`.
Loading a completed order while the flag is still set from a previous
transient order leaves the poll timer armed for a non-transient status. -/
theorem C1_counterexample :
    pollTimerArmed (applyLoadOrder sSelectedA orderCompletedC) = true ∧
    isTransientStatus orderCompletedC.translation_status = false := by
  exact ⟨rfl, by decide⟩

/-- C1 (amended): starting from a disarmed state, loading an order arms
polling exactly when its status is transient; loading a transient order
always arms polling; and an armed timer whose selected order is not
transient issues no request on its tick — it only disarms itself. -/
theorem C1_polling_arming (s : AdminState) (data : Order) :
    (s.autoRefresh = false →
      pollTimerArmed (applyLoadOrder s data) =
        isTransientStatus data.translation_status) ∧
    (isTransientStatus data.translation_status = true →
      pollTimerArmed (applyLoadOrder s data) = true) ∧
    (∀ o : Order, s.selectedOrder = some o →
      isTransientStatus o.translation_status = false →
      pollTick s = ({ s with autoRefresh := false }, [])) := by
  refine ⟨?_, ?_, ?_⟩
  · intro h
    cases ht : isTransientStatus data.translation_status <;>
      simp [pollTimerArmed, applyLoadOrder, ht, h]
  · intro ht
    simp [pollTimerArmed, applyLoadOrder, ht]
  · intro o ho hnt
    simp [pollTick, ho, hnt]

/-- Witness for the amended C1 at concrete inputs. -/
theorem C1_polling_arming_witness :
    pollTimerArmed (applyLoadOrder idleAdminState orderTranslatingA) =
      isTransientStatus orderTranslatingA.translation_status ∧
    pollTick sArmedCompleted =
      ({ sArmedCompleted with autoRefresh := false }, []) := by
  constructor
  · exact (C1_polling_arming idleAdminState orderTranslatingA).1 rfl
  · exact (C1_polling_arming sArmedCompleted orderTranslatingA).2.2
      orderCompletedC rfl (by decide)

/-- C3: the race evaluated at the failing input.  Order A is selected and
polled; order B is selected and its load resolves; then A's stale poll
response resolves.  `loadOrder` applies `setSelectedOrder(data)` with no
selection guard, so the stale response replaces the displayed order. -/
theorem C3_stale_response_applied :
    (applyLoadOrder (applyLoadOrder sSelectedA orderB)
        orderAStale).selectedOrder = some orderAStale ∧
    ¬ orderAStale.id = orderB.id := by
  exact ⟨rfl, by decide⟩

/-- C4 counterexample: in admin variant 2 the start button is disabled only
by the in-flight flag, so with a received order whose source text is empty
a click still issues the start-translation network call, contradicting
"with empty source text, issues no network call". -/
theorem C4_counterexample :
    orderReceivedNoText.original_text = "" ∧
    (clickStartV2 sV2NoText).2 =
      [NetReq.startTranslationReq "ord-3" ""] := by
  exact ⟨rfl, rfl⟩

/-- C4 (amended): in both admin variants the start button is rendered only
for status `received`, so no start call can be issued from any other
status; in variant 1 empty source text also blocks the call, but in
variant 2 it does not. -/
theorem C4_start_gating :
    (∀ s : AdminState, ∀ o : Order, s.selectedOrder = some o →
      ¬ o.translation_status = "received" → clickStart s = (s, [])) ∧
    (∀ s : AdminState, ∀ o : Order, s.selectedOrder = some o →
      o.original_text = "" → clickStart s = (s, [])) ∧
    (∀ s : AdminStateV2, ∀ o : Order, s.selectedOrder = some o →
      ¬ o.translation_status = "received" → clickStartV2 s = (s, [])) := by
  refine ⟨?_, ?_, ?_⟩
  · intro s o ho h
    simp [clickStart, ho, startBtnRendered, h]
  · intro s o ho h
    simp [clickStart, ho, startBtnDisabled, h]
  · intro s o ho h
    simp [clickStartV2, ho, h]

/-- Witness for the amended C4 at concrete inputs. -/
theorem C4_start_gating_witness :
    clickStart sPmIdle = (sPmIdle, []) ∧
    clickStart sV1NoTextState = (sV1NoTextState, []) := by
  constructor
  · exact C4_start_gating.1 sPmIdle orderPm2 rfl (by decide)
  · exact C4_start_gating.2.1 sV1NoTextState orderReceivedNoText rfl rfl

/-- C2 counterexample: with the re-translate request outstanding for the
selected PM-review order, the approve button for the same order is NOT
disabled (it is gated only on `actionLoading === 'approve'`), and clicking
it issues a second concurrent mutating call — contradicting "all action
buttons for that order are disabled". -/
theorem C2_counterexample :
    sReTranslateInFlight.actionLoading = "re-translate" ∧
    approveBtnDisabled sReTranslateInFlight = false ∧
    (clickApprove sReTranslateInFlight).2 = [NetReq.approvePmReq "ord-2"] := by
  exact ⟨rfl, rfl, rfl⟩

/-- C2 (amended): each button is disabled while its own action is in
flight, so two rapid clicks of the same button issue exactly one network
call (shown for re-translate and approve); on the review page any in-flight
action disables both buttons, making every click a no-op; but in the admin
view, while the re-translate request is outstanding, the approve button for
the same order remains enabled. -/
theorem C2_action_gating :
    (∀ s : AdminState, ∀ o : Order, s.selectedOrder = some o →
      reTranslateBtnRendered o = true → s.actionLoading = "" →
      doubleClick clickReTranslate s =
        [NetReq.reTranslateReq o.id s.aiCommands]) ∧
    (∀ s : AdminState, ∀ o : Order, s.selectedOrder = some o →
      approveBtnRendered o = true → s.actionLoading = "" →
      doubleClick clickApprove s = [NetReq.approvePmReq o.id]) ∧
    (∀ r : ReviewState, ¬ r.action = "" →
      ∀ a : String, clickReview r a = (r, [])) ∧
    (∀ s : AdminState, s.actionLoading = "re-translate" →
      reTranslateBtnDisabled s = true ∧ approveBtnDisabled s = false) := by
  refine ⟨?_, ?_, ?_, ?_⟩
  · intro s o ho hr hidle
    have h1 : clickReTranslate s =
        ({ s with actionLoading := "re-translate" },
         [NetReq.reTranslateReq o.id s.aiCommands]) := by
      simp [clickReTranslate, ho, hr, reTranslateBtnDisabled, hidle]
    have h2 : clickReTranslate { s with actionLoading := "re-translate" } =
        ({ s with actionLoading := "re-translate" }, []) := by
      simp [clickReTranslate, ho, hr, reTranslateBtnDisabled]
    simp [doubleClick, h1, h2]
  · intro s o ho hr hidle
    have h1 : clickApprove s =
        ({ s with actionLoading := "approve" },
         [NetReq.approvePmReq o.id]) := by
      simp [clickApprove, ho, hr, approveBtnDisabled, hidle]
    have h2 : clickApprove { s with actionLoading := "approve" } =
        ({ s with actionLoading := "approve" }, []) := by
      simp [clickApprove, ho, hr, approveBtnDisabled]
    simp [doubleClick, h1, h2]
  · intro r hr a
    simp [clickReview, reviewBtnDisabled, hr]
  · intro s h
    exact ⟨by simp [reTranslateBtnDisabled, h], by simp [approveBtnDisabled, h]⟩

/-- Witness for the amended C2 at concrete inputs. -/
theorem C2_action_gating_witness :
    doubleClick clickReTranslate sPmIdle =
      [NetReq.reTranslateReq "ord-2" ""] ∧
    clickReview rInFlight "approve" = (rInFlight, []) ∧
    reTranslateBtnDisabled sReTranslateInFlight = true := by
  refine ⟨?_, ?_, ?_⟩
  · exact C2_action_gating.1 sPmIdle orderPm2 rfl (by decide) rfl
  · exact C2_action_gating.2.2.1 rInFlight (by decide) "approve"
  · exact (C2_action_gating.2.2.2 sReTranslateInFlight rfl).1

/-- Trimming the empty string gives the empty string. -/
theorem jsTrim_empty : jsTrim "" = "" := rfl

/-- C5 (confirmed): submitting `request_correction` with blank (empty or
whitespace-only) notes issues no network call and reports the local
validation error; with non-blank notes it issues exactly one POST carrying
the order id, the token, the action, and the notes. -/
theorem C5_request_correction_validation (s : ReviewState) :
    (jsTrim s.correctionNotes = "" →
      handleSubmit s "request_correction" =
        (s, some "Please describe the corrections you need.", [])) ∧
    (¬ jsTrim s.correctionNotes = "" →
      handleSubmit s "request_correction" =
        ({ s with action := "request_correction" }, none,
         [NetReq.reviewPost s.orderId s.token "request_correction"
            (some s.correctionNotes)])) := by
  constructor
  · intro h
    simp [handleSubmit, h]
  · intro h
    have hn : ¬ s.correctionNotes = "" := by
      intro he
      exact h (by rw [he]; exact jsTrim_empty)
    simp [handleSubmit, h, hn]

/-- Witness for C5: whitespace-only notes are rejected locally; substantive
notes produce the authenticated POST. -/
theorem C5_request_correction_validation_witness :
    handleSubmit rBlankNotes "request_correction" =
      (rBlankNotes, some "Please describe the corrections you need.", []) ∧
    handleSubmit rRealNotes "request_correction" =
      ({ rRealNotes with action := "request_correction" }, none,
       [NetReq.reviewPost "ord-9" "tok" "request_correction"
          (some "Fix date format")]) := by
  constructor
  · exact (C5_request_correction_validation rBlankNotes).1 (by decide)
  · exact (C5_request_correction_validation rRealNotes).2 (by decide)

/-- C6 counterexample: `approvePM` has no else branch on its `resp.ok`
check, so a non-2xx response with a server-provided message surfaces
nothing at all — contradicting "the server-provided message is surfaced to
the user (or a generic fallback when absent)". -/
theorem C6_counterexample :
    (FetchResult.resp false (some "Order is not in pm_review")).failed
      = true ∧
    (approvePMComplete sPmIdle
        (FetchResult.resp false (some "Order is not in pm_review"))).toastError
      = none ∧
    (approvePMComplete sPmIdle
        (FetchResult.resp false (some "Order is not in pm_review"))).toastSuccess
      = none := by
  exact ⟨rfl, rfl, rfl⟩

/-- C6 (amended): on any failure (non-2xx or network error) every mutating
action leaves the selected order unchanged, clears the in-flight flag
(re-enabling the action) and requests no refresh; start, re-translate and
accept-upload always surface an error message — the server detail verbatim
when it is a non-empty string, the generic fallback when it is absent or
empty (JS falsiness of the empty string); approve and complete surface a
message only on a thrown network error — a non-2xx response is silent for
them. -/
theorem C6_failure_handling (s : AdminState) (r : FetchResult)
    (h : r.failed = true) :
    ((startTranslationComplete s r).state.selectedOrder = s.selectedOrder ∧
     (startTranslationComplete s r).state.actionLoading = "" ∧
     (startTranslationComplete s r).refreshSelected = false ∧
     (startTranslationComplete s r).toastError.isSome = true) ∧
    ((reTranslateComplete s r).state.selectedOrder = s.selectedOrder ∧
     (reTranslateComplete s r).state.actionLoading = "" ∧
     (reTranslateComplete s r).refreshSelected = false ∧
     (reTranslateComplete s r).toastError.isSome = true) ∧
    ((acceptPmUploadComplete s r).state.selectedOrder = s.selectedOrder ∧
     (acceptPmUploadComplete s r).state.actionLoading = "" ∧
     (acceptPmUploadComplete s r).refreshSelected = false ∧
     (acceptPmUploadComplete s r).toastError.isSome = true) ∧
    ((approvePMComplete s r).state.selectedOrder = s.selectedOrder ∧
     (approvePMComplete s r).state.actionLoading = "" ∧
     (approvePMComplete s r).refreshSelected = false ∧
     ((approvePMComplete s r).toastError.isSome = true ↔
        r = FetchResult.netError)) ∧
    ((markCompleteComplete s r).state.selectedOrder = s.selectedOrder ∧
     (markCompleteComplete s r).state.actionLoading = "" ∧
     (markCompleteComplete s r).refreshSelected = false ∧
     ((markCompleteComplete s r).toastError.isSome = true ↔
        r = FetchResult.netError)) ∧
    (∀ d : String, ¬ d = "" →
      (startTranslationComplete s
          (FetchResult.resp false (some d))).toastError = some d ∧
      (reTranslateComplete s
          (FetchResult.resp false (some d))).toastError = some d ∧
      (acceptPmUploadComplete s
          (FetchResult.resp false (some d))).toastError = some d) ∧
    ((startTranslationComplete s
        (FetchResult.resp false (some ""))).toastError =
          some "Failed to start" ∧
     (reTranslateComplete s
        (FetchResult.resp false (some ""))).toastError =
          some "Failed to re-translate" ∧
     (acceptPmUploadComplete s
        (FetchResult.resp false (some ""))).toastError =
          some "Failed to accept") := by
  have hverb : ∀ d : String, ¬ d = "" →
      (startTranslationComplete s
          (FetchResult.resp false (some d))).toastError = some d ∧
      (reTranslateComplete s
          (FetchResult.resp false (some d))).toastError = some d ∧
      (acceptPmUploadComplete s
          (FetchResult.resp false (some d))).toastError = some d := by
    intro d hd
    refine ⟨?_, ?_, ?_⟩ <;>
      simp [startTranslationComplete, reTranslateComplete,
        acceptPmUploadComplete, jsOrUndef, hd]
  have hempty :
      (startTranslationComplete s
          (FetchResult.resp false (some ""))).toastError =
            some "Failed to start" ∧
      (reTranslateComplete s
          (FetchResult.resp false (some ""))).toastError =
            some "Failed to re-translate" ∧
      (acceptPmUploadComplete s
          (FetchResult.resp false (some ""))).toastError =
            some "Failed to accept" := by
    refine ⟨?_, ?_, ?_⟩ <;>
      simp [startTranslationComplete, reTranslateComplete,
        acceptPmUploadComplete, jsOrUndef]
  rcases r with ⟨ok, d⟩ | _
  · cases ok
    · refine ⟨?_, ?_, ?_, ?_, ?_, hverb, hempty⟩ <;>
        simp [startTranslationComplete, reTranslateComplete,
          acceptPmUploadComplete, approvePMComplete, markCompleteComplete,
          jsOrUndef]
    · simp [FetchResult.failed] at h
  · refine ⟨?_, ?_, ?_, ?_, ?_, hverb, hempty⟩ <;>
      simp [startTranslationComplete, reTranslateComplete,
        acceptPmUploadComplete, approvePMComplete, markCompleteComplete]

/-- Witness for the amended C6 at a concrete failed response. -/
theorem C6_failure_handling_witness :
    (FetchResult.resp false (some "quota exceeded")).failed = true ∧
    (startTranslationComplete sPmIdle
        (FetchResult.resp false (some "quota exceeded"))).toastError
      = some "quota exceeded" ∧
    (startTranslationComplete sPmIdle
        (FetchResult.resp false (some "quota exceeded"))).state.actionLoading
      = "" := by
  refine ⟨by decide, ?_, ?_⟩
  · exact ((C6_failure_handling sPmIdle
      (FetchResult.resp false (some "quota exceeded"))
        (by decide)).2.2.2.2.2.1 "quota exceeded" (by decide)).1
  · exact (C6_failure_handling sPmIdle
      (FetchResult.resp false (some "quota exceeded")) (by decide)).1.2.1

/-- C7 counterexample: the claim fails twice.  The badge derivation applied
to the empty status string yields an empty label (`STATUS_LABELS[''] || ''`
is `''`), contradicting "a non-empty label ... for every status string";
and for an unknown status the Upload Translation tab still renders the
upload area with its action, contradicting "no enabled action panel for
unknown statuses". -/
theorem C7_counterexample :
    statusBadgeLabel "" = "" ∧
    uploadTabPanel "mystery_status" = some "upload-area" := by
  exact ⟨by decide, rfl⟩

/-- C7 (amended): the badge derivation is total; the color always falls
back to the neutral `#718096` and is never empty; the label is the lookup
value for known statuses and the raw status string for unknown ones, hence
non-empty whenever the status string itself is non-empty; the AI-pipeline
tab renders no action panel for a status outside the known set, but the
Upload Translation tab offers the upload action for every status other
than `pm_upload_ready` and `final`, unknown statuses included. -/
theorem C7_badge_derivation (st : String) :
    ¬ statusBadgeColor st = "" ∧
    (¬ st = "" → ¬ statusBadgeLabel st = "") ∧
    (jsLookup STATUS_LABELS st = none → statusBadgeLabel st = st) ∧
    (st ∉ panelStatuses → pipelinePanel st = none) ∧
    (¬ st = "pm_upload_ready" → ¬ st = "final" →
      uploadTabPanel st = some "upload-area") := by
  refine ⟨?_, ?_, ?_, ?_, ?_⟩
  · unfold statusBadgeColor jsOrUndef
    cases jsLookup STATUS_COLORS st with
    | none => decide
    | some v =>
        by_cases hv : v = ""
        · simp [hv]
        · simp [hv]
  · intro hst
    unfold statusBadgeLabel jsOrUndef
    cases jsLookup STATUS_LABELS st with
    | none => exact hst
    | some v =>
        by_cases hv : v = ""
        · simp [hv]; exact hst
        · simp [hv]
  · intro h
    simp [statusBadgeLabel, h, jsOrUndef]
  · intro h
    simp only [panelStatuses, List.mem_cons, List.not_mem_nil, or_false,
      not_or] at h
    obtain ⟨h1, h2, h3, h4, h5, h6, h7, h8, h9, h10, h11⟩ := h
    simp [pipelinePanel, h1, h2, h3, h4, h5, h6, h7, h8, h9, h10, h11]
  · intro h1 h2
    simp [uploadTabPanel, h1, h2]

/-- Witness for the amended C7 at a status outside the taxonomy. -/
theorem C7_badge_derivation_witness :
    ¬ statusBadgeColor "mystery_status" = "" ∧
    ¬ statusBadgeLabel "mystery_status" = "" ∧
    statusBadgeLabel "mystery_status" = "mystery_status" ∧
    pipelinePanel "mystery_status" = none ∧
    uploadTabPanel "mystery_status" = some "upload-area" := by
  obtain ⟨hc, hl, hraw, hp, hu⟩ := C7_badge_derivation "mystery_status"
  exact ⟨hc, hl (by decide), hraw (by decide), hp (by decide),
    hu (by decide) (by decide)⟩

/-- Appending the empty string on the right is the identity. -/
theorem string_append_empty (s : String) : s ++ "" = s := by
  cases s with
  | mk l =>
      show String.mk (l ++ []) = String.mk l
      rw [List.append_nil]

/-- JS `substring(0, n)` returns the whole string when it is short enough. -/
theorem jsSubstring_of_le (s : String) (n : Nat) (h : s.length ≤ n) :
    jsSubstring s n = s := by
  unfold jsSubstring
  rw [List.take_of_length_le h]

/-- C8 (confirmed): the translation shown in the PM-review panel follows
the fallback chain markup → proofread → translated → placeholder (variant
1, whose preview truncates only past 3000 characters), and variant 2 —
whose order interface carries no markup field — follows the chain
proofread → translated → placeholder. -/
theorem C8_translation_fallback_chain (o : Order)
    (h : (getTranslationHtml o).length ≤ 3000) :
    reviewPanelTranslationText o =
      specFallbackChain o.translation_html o.proofread_text
        o.translated_text ∧
    pmReviewTextV2 o =
      specFallbackChain "" o.proofread_text o.translated_text := by
  have hnot : ¬ 3000 < (getTranslationHtml o).length := by omega
  constructor
  · unfold reviewPanelTranslationText
    rw [if_neg hnot, jsSubstring_of_le _ _ h, string_append_empty]
    unfold getTranslationHtml specFallbackChain jsOr
    by_cases h1 : o.translation_html = "" <;>
      by_cases h2 : o.proofread_text = "" <;>
        by_cases h3 : o.translated_text = "" <;>
          simp [h1, h2, h3]
  · unfold pmReviewTextV2 specFallbackChain jsOr
    by_cases h2 : o.proofread_text = "" <;>
      by_cases h3 : o.translated_text = "" <;>
        simp [h2, h3]

/-- Witness for C8 at an order whose only content is the proofread text. -/
theorem C8_translation_fallback_chain_witness :
    (getTranslationHtml orderProofOnly).length ≤ 3000 ∧
    reviewPanelTranslationText orderProofOnly =
      specFallbackChain orderProofOnly.translation_html
        orderProofOnly.proofread_text orderProofOnly.translated_text := by
  exact ⟨by decide,
    (C8_translation_fallback_chain orderProofOnly (by decide)).1⟩

/-- C9 (confirmed): the review page never issues a request without both the
order id and the token — a missing one yields the local
`Invalid review link.` error and no request; with both present the GET
carries them; every submission POST carries the page's order id and token;
and a rejected initial fetch surfaces the distinct invalid-or-expired
message. -/
theorem C9_review_credentials (orderId token : String) (s : ReviewState) :
    (orderId = "" ∨ token = "" →
      reviewInit orderId token = (some "Invalid review link.", [])) ∧
    (¬ orderId = "" → ¬ token = "" →
      reviewInit orderId token = (none, [NetReq.reviewGet orderId token])) ∧
    (∀ a : String, ∀ req ∈ (handleSubmit s a).2.2,
      req = NetReq.reviewPost s.orderId s.token a
        (if s.correctionNotes = "" then none else some s.correctionNotes)) ∧
    (reviewFetchError false = some "Invalid or expired review link" ∧
     ¬ (("Invalid or expired review link" : String) = "Invalid review link.") ∧
     ¬ (("Invalid or expired review link" : String) = "Failed to submit review")) := by
  refine ⟨?_, ?_, ?_, by decide⟩
  · intro h
    simp [reviewInit, h]
  · intro h1 h2
    simp [reviewInit, h1, h2]
  · intro a req hreq
    unfold handleSubmit at hreq
    by_cases hc : a = "request_correction" ∧ jsTrim s.correctionNotes = ""
    · rw [if_pos hc] at hreq
      simp at hreq
    · rw [if_neg hc] at hreq
      simp at hreq
      exact hreq

/-- Witness for C9 at concrete inputs. -/
theorem C9_review_credentials_witness :
    reviewInit "" "tok" = (some "Invalid review link.", []) ∧
    reviewInit "ord-9" "tok" = (none, [NetReq.reviewGet "ord-9" "tok"]) := by
  constructor
  · exact (C9_review_credentials "" "tok" rRealNotes).1 (Or.inl rfl)
  · exact (C9_review_credentials "ord-9" "tok" rRealNotes).2.1
      (by decide) (by decide)

/-- C10 (confirmed): with no file selected the PM-translation upload
handler returns before touching the loading flag, issues no request and
shows the local select-a-file error; with a file selected it sets the
loading flag and issues exactly one upload request. -/
theorem C10_upload_requires_file (s : AdminState) (orderId : String) :
    (s.uploadFile = none →
      uploadPmTranslationStep s orderId =
        (s, some "Please select a file first", [])) ∧
    (∀ f : String, s.uploadFile = some f →
      uploadPmTranslationStep s orderId =
        ({ s with uploadLoading := true }, none,
         [NetReq.uploadPmReq orderId f])) := by
  constructor
  · intro h
    simp [uploadPmTranslationStep, h]
  · intro f h
    simp [uploadPmTranslationStep, h]

/-- Witness for C10 at concrete inputs. -/
theorem C10_upload_requires_file_witness :
    uploadPmTranslationStep sPmIdle "ord-2" =
      (sPmIdle, some "Please select a file first", []) ∧
    uploadPmTranslationStep
        { sPmIdle with uploadFile := some "final.docx" } "ord-2" =
      ({ sPmIdle with
          uploadFile := some "final.docx"
          uploadLoading := true }, none,
       [NetReq.uploadPmReq "ord-2" "final.docx"]) := by
  constructor
  · exact (C10_upload_requires_file sPmIdle "ord-2").1 rfl
  · exact (C10_upload_requires_file
      { sPmIdle with uploadFile := some "final.docx" } "ord-2").2
        "final.docx" rfl

end Tradux
